import Mathlib

/-!
# Verification of `text_stream` (src/text_stream/text_stream.py)

A shallow embedding of the `text_stream` package: a `StringBuffer` models
`io.StringIO` (full text plus a cursor, tagged with a handle id standing for
Python object identity), a `FileSystem` models the relevant filesystem state,
and a list of `ConsoleEvent`s models interactive standard input.  The
functions below are direct translations of `TextStreamABC`, `TextStream`,
`TextFileStream`, `_user_input` and `make_text_stream`.
-/

-- ===================== The buffer (`io.StringIO`) =====================

/-- Models `io.StringIO`: the buffered text (`data`), the cursor position
(`pos`), and a handle id standing for Python object identity (two distinct
`StringIO` objects have distinct ids; storing a buffer by reference preserves
its id). -/
structure StringBuffer where
  handleId : Nat
  data : List Char
  pos : Nat
deriving DecidableEq, Repr

/-- Models `StringIO.getvalue()`: the whole buffered text, independent of the
cursor. -/
def StringBuffer.getvalue (b : StringBuffer) : List Char :=
  b.data

/-- The characters of one line read from the front of `l`: everything up to
and including the first newline, or all of `l` when it has no newline.  This
is the unit of Python's line iteration over a `StringIO`. -/
def takeLine : List Char → List Char
  | [] => []
  | c :: cs => if c = '\n' then [c] else c :: takeLine cs

/-- Models one step of `for line in stream`: `StringIO.readline()` at the
current cursor, returning the line and the advanced buffer, or `none` at
end of buffer. -/
def StringBuffer.readLine (b : StringBuffer) : Option (List Char × StringBuffer) :=
  if b.pos < b.data.length then
    let l := takeLine (b.data.drop b.pos)
    some (l, { b with pos := b.pos + l.length })
  else
    none

/-- The loop `for line in stream: yield line`, with explicit fuel (each
iteration consumes at least one character, so `data.length + 1` fuel always
suffices; see `readLinesFuel_eq_splitLines`). -/
def readLinesFuel : Nat → StringBuffer → List (List Char) × StringBuffer
  | 0, b => ([], b)
  | n + 1, b =>
    match b.readLine with
    | none => ([], b)
    | some (l, b') =>
      let p := readLinesFuel n b'
      (l :: p.1, p.2)

/-- The loop `for line in stream: yield line, stream.tell()`: each produced
line is paired with the cursor position immediately after reading it. -/
def readLinesTellFuel : Nat → StringBuffer → List (List Char × Nat) × StringBuffer
  | 0, b => ([], b)
  | n + 1, b =>
    match b.readLine with
    | none => ([], b)
    | some (l, b') =>
      let p := readLinesTellFuel n b'
      ((l, b'.pos) :: p.1, p.2)

/-- All lines of a text, split after each newline character (Python's
line-splitting for `StringIO` iteration). -/
def splitLines (l : List Char) : List (List Char) :=
  if h : l = [] then []
  else
    let ln := takeLine l
    ln :: splitLines (l.drop ln.length)
termination_by l.length
decreasing_by
  have h1 : 0 < (takeLine l).length := by
    cases l with
    | nil => exact absurd rfl h
    | cons c cs =>
      simp only [takeLine]
      split <;> simp
  have h2 : 0 < l.length := by
    cases l with
    | nil => exact absurd rfl h
    | cons c cs => simp
  simp only [List.length_drop]
  omega

-- ===================== The filesystem and the console =====================

/-- The relevant filesystem state: the existing regular files (path to text
contents, keys exact strings) and the home directory used for `~` expansion. -/
structure FileSystem where
  files : List (String × String)
  home : String
deriving DecidableEq, Repr

/-- Models `pathlib.Path(p).expanduser()` (an external library call): a
leading `~` path segment (bare `~`, or `~/` followed by the rest) is replaced
by the home directory; any other path is returned unchanged (the `~user` form
is not modelled). -/
def expanduser (fs : FileSystem) (p : String) : String :=
  match p.toList with
  | ['~'] => fs.home
  | '~' :: '/' :: rest => fs.home ++ String.mk ('/' :: rest)
  | _ => p

/-- Models `pathlib.Path(p).is_file()`: does `p` name an existing regular
file? -/
def isFile (fs : FileSystem) (p : String) : Bool :=
  (fs.files.lookup p).isSome

/-- Models `open(p)` followed by `f.read()`: the text of the file literally
named `p`, or `none` (Python raises `FileNotFoundError`) when no file has
exactly that name.  `open` performs no `~` expansion. -/
def openRead (fs : FileSystem) (p : String) : Option String :=
  fs.files.lookup p

/-- Models `PurePath.is_absolute()` on POSIX: the path starts with `/`. -/
def isAbsolutePath (p : String) : Bool :=
  match p.toList with
  | '/' :: _ => true
  | _ => false

/-- One event the interactive console can deliver to `input()`: a typed line
(without its newline), end-of-input (Ctrl+D), or an interrupt (Ctrl+C). -/
inductive ConsoleEvent where
  | line (s : String)
  | eof
  | interrupt
deriving DecidableEq, Repr

/-- The loop body of `_user_input`: read lines with `input()`, collect the
non-blank ones, `break` on a blank line, and catch `EOFError` or
`KeyboardInterrupt` to return the lines joined with a newline.  An exhausted
event list behaves as end-of-input.  The result is `some` joined text on the
end-of-input/interrupt paths, but `none` on the blank-line path: the `break`
leaves the `try` block and falls off the end of the function, which in Python
returns `None` (despite the declared return type `str`). -/
def userInputLoop : List ConsoleEvent → List String → Option String × List ConsoleEvent
  | [], acc => (some (String.intercalate "\n" acc), [])
  | ConsoleEvent.line s :: rest, acc =>
    if s = "" then (none, rest)
    else userInputLoop rest (acc ++ [s])
  | ConsoleEvent.eof :: rest, acc => (some (String.intercalate "\n" acc), rest)
  | ConsoleEvent.interrupt :: rest, acc => (some (String.intercalate "\n" acc), rest)

/-- Models `_user_input()`: returns the value described at `userInputLoop`
together with the console events not yet consumed. -/
def user_input (console : List ConsoleEvent) : Option String × List ConsoleEvent :=
  userInputLoop console []

-- ===================== The stream classes =====================

deriving instance DecidableEq for Except

/-- A Python error value: the class and the message. -/
inductive PyError where
  | typeError (msg : String)
  | fileNotFoundError (msg : String)
deriving DecidableEq, Repr

/-- Models an argument passed to `TextStream.__init__` (`str`, `StringIO`,
`None`, or a value of any other type). -/
inductive StreamInput where
  | str (s : String)
  | buffer (b : StringBuffer)
  | pynone
  | other
deriving DecidableEq, Repr

/-- A constructed `TextStream` instance: it holds exactly its `__stream`
attribute. -/
structure TextStream where
  stream : StringBuffer
deriving DecidableEq, Repr

/-- Models `StringIO(x)` where `x` is a `str` or `None` (the result of
`_user_input()`): `StringIO(None)` is an empty buffer, `StringIO(s)` buffers
`s`.  The new object gets a fresh handle id and cursor 0. -/
def newStringBuffer (freshId : Nat) (x : Option String) : StringBuffer :=
  { handleId := freshId, data := (x.getD "").toList, pos := 0 }

/-- Models `TextStream.__init__`: `None` reads from the console via
`_user_input()` and wraps the result in a fresh `StringIO`; a `str` is
wrapped in a fresh `StringIO`; a `StringIO` is stored by reference; any other
type raises `TypeError`.  Returns the instance plus the console events left
unconsumed. -/
def TextStream.init (inp : StreamInput) (console : List ConsoleEvent) (freshId : Nat) :
    Except PyError (TextStream × List ConsoleEvent) :=
  match inp with
  | StreamInput.pynone =>
    let r := user_input console
    Except.ok (⟨newStringBuffer freshId r.1⟩, r.2)
  | StreamInput.str s => Except.ok (⟨newStringBuffer freshId (some s)⟩, console)
  | StreamInput.buffer b => Except.ok (⟨b⟩, console)
  | StreamInput.other =>
    Except.error (PyError.typeError
      "Unsupported type! The only recognized types are ``str`` and ``io.StringIO`` and ``None``!")

/-- Models the `TextStream.infile_path` property: always `None`. -/
def TextStream.infile_path (_ : TextStream) : Option String :=
  none

/-- A constructed `TextFileStream` instance: its `__infile_path` attribute
(the original, pre-expansion path string) and its `__stream` attribute. -/
structure TextFileStream where
  infilePathRaw : String
  stream : StringBuffer
deriving DecidableEq, Repr

/-- Models an argument passed to `TextFileStream.__init__`. -/
inductive PathInput where
  | str (s : String)
  | other
deriving DecidableEq, Repr

/-- Models `TextFileStream.__init__`: for a `str` argument, check
`Path(inp).expanduser().is_file()`; on success store the raw path and read
the file — but with `open(inp)`, the UNexpanded path, so a path that needs
`~` expansion fails here with Python's own `FileNotFoundError`; when the
check fails, raise `FileNotFoundError` with the module's message naming the
path.  Non-`str` arguments raise `TypeError`. -/
def TextFileStream.init (fs : FileSystem) (inp : PathInput) (freshId : Nat) :
    Except PyError TextFileStream :=
  match inp with
  | PathInput.str p =>
    if isFile fs (expanduser fs p) then
      match openRead fs p with
      | some text => Except.ok ⟨p, newStringBuffer freshId (some text)⟩
      | none =>
        Except.error (PyError.fileNotFoundError
          ("[Errno 2] No such file or directory: '" ++ p ++ "'"))
    else
      Except.error (PyError.fileNotFoundError
        ("The *inp* argument '" ++ p ++ "' is not a valid file!"))
  | PathInput.other =>
    Except.error (PyError.typeError
      "Unsupported type! The only recognized type is ``str``!")

/-- Models the `TextFileStream.infile_path` property:
`Path(self.__infile_path).expanduser()`, recomputed from the stored raw path
on every access (the filesystem state `fs` is the one current at the access,
not at construction). -/
def TextFileStream.infile_path (fs : FileSystem) (t : TextFileStream) : String :=
  expanduser fs t.infilePathRaw

-- ===================== The iteration protocol (`TextStreamABC`) =====================

/-- Models `TextStreamABC.generator`: snapshot `self.stream`, `seek(0)`, then
`for line in stream: yield line`.  Returns the produced lines and the buffer
as the loop leaves it. -/
def TextStreamABC.generator (b : StringBuffer) : List (List Char) × StringBuffer :=
  readLinesFuel (b.data.length + 1) { b with pos := 0 }

/-- Models `TextStreamABC.generator_telling_position`: snapshot `self.stream`,
`seek(0)`, then `for line in stream: yield line, stream.tell()`. -/
def TextStreamABC.generator_telling_position (b : StringBuffer) :
    List (List Char × Nat) × StringBuffer :=
  readLinesTellFuel (b.data.length + 1) { b with pos := 0 }

/-- Models `TextStreamABC.content` as a value: `self.stream.getvalue()` (the
lazy caching of the `LazyProperty` wrapper is modelled separately by
`accessContent`). -/
def TextStreamABC.content (b : StringBuffer) : List Char :=
  b.getvalue

/-- Python's normalization of a (possibly negative) slice index against a
length: a negative index counts from the end. -/
def pyIndex (len : Nat) (i : Int) : Int :=
  if i < 0 then i + len else i

/-- Python's clamping of a normalized slice index into `[0, len]`. -/
def pyClamp (len : Nat) (i : Int) : Nat :=
  (max 0 (min i len)).toNat

/-- Python's `s[b:e]` on a string (as a list of characters): normalize both
indices, clamp into range, and take the characters in between.  Slicing never
raises. -/
def pySlice (s : List Char) (b e : Int) : List Char :=
  (s.take (pyClamp s.length (pyIndex s.length e))).drop (pyClamp s.length (pyIndex s.length b))

/-- Models `TextStreamABC.generator_between`: `s = self.content[begin:end+1]`
then `for line in s: yield line` — iterating a Python string yields its
individual characters, so the produced items are the characters of the
slice. -/
def TextStreamABC.generator_between (t : StringBuffer) (b e : Int) : List Char :=
  pySlice (TextStreamABC.content t) b (e + 1)

-- ===================== The lazy `content` property =====================

/-- The observable state of one stream instance for the `content` property:
its buffer and the `LazyProperty` cache (absent until the first access). -/
structure StreamState where
  buffer : StringBuffer
  contentCache : Option (List Char)
deriving DecidableEq, Repr

/-- Models one access to the `content` property under `LazyProperty`: return
the cached value if present; otherwise read `self.stream.getvalue()`, cache
it, and return it. -/
def accessContent (s : StreamState) : List Char × StreamState :=
  match s.contentCache with
  | some v => (v, s)
  | none => (s.buffer.getvalue, { s with contentCache := some s.buffer.getvalue })

-- ===================== The factory (`make_text_stream`) =====================

/-- Models an argument passed to `make_text_stream`. -/
inductive MakeInput where
  | str (s : String)
  | buffer (b : StringBuffer)
  | pynone
  | other
deriving DecidableEq, Repr

/-- The result of `make_text_stream`: which concrete class was constructed,
with the instance. -/
inductive MadeStream where
  | file (t : TextFileStream)
  | mem (t : TextStream)
deriving DecidableEq, Repr

/-- The `content` of a made stream (whichever class), as a value. -/
def MadeStream.content : MadeStream → List Char
  | MadeStream.file t => TextStreamABC.content t.stream
  | MadeStream.mem t => TextStreamABC.content t.stream

/-- Models `make_text_stream`: a `str` naming an existing file (after `~`
expansion) goes to `TextFileStream(inp)`; any other `str` goes to
`TextStream(inp)`; a `StringIO` goes to `TextStream(inp)`; `None` goes to
`TextStream(_user_input())` — note the argument `_user_input()` is evaluated
first (consuming console input) and its result, a `str` or `None`, is what
`TextStream` receives; any other type raises `TypeError`. -/
def make_text_stream (fs : FileSystem) (console : List ConsoleEvent) (inp : MakeInput)
    (freshId : Nat) : Except PyError (MadeStream × List ConsoleEvent) :=
  match inp with
  | MakeInput.str s =>
    if isFile fs (expanduser fs s) then
      (TextFileStream.init fs (PathInput.str s) freshId).map (fun t => (MadeStream.file t, console))
    else
      (TextStream.init (StreamInput.str s) console freshId).map
        (fun p => (MadeStream.mem p.1, p.2))
  | MakeInput.buffer b =>
    (TextStream.init (StreamInput.buffer b) console freshId).map
      (fun p => (MadeStream.mem p.1, p.2))
  | MakeInput.pynone =>
    let r := user_input console
    match r.1 with
    | some s =>
      (TextStream.init (StreamInput.str s) r.2 freshId).map
        (fun p => (MadeStream.mem p.1, p.2))
    | none =>
      (TextStream.init StreamInput.pynone r.2 freshId).map
        (fun p => (MadeStream.mem p.1, p.2))
  | MakeInput.other =>
    Except.error (PyError.typeError
      "Unsupported type! The only recognized types are ``str`` and ``io.StringIO`` and ``None``!")

-- ===================== Helper lemmas =====================

theorem takeLine_length_pos (c : Char) (cs : List Char) :
    0 < (takeLine (c :: cs)).length := by
  simp only [takeLine]
  split <;> simp

theorem takeLine_length_le (l : List Char) : (takeLine l).length ≤ l.length := by
  induction l with
  | nil => simp [takeLine]
  | cons c cs ih =>
    simp only [takeLine]
    split
    · simp
    · simp only [List.length_cons]
      omega

/-- `takeLine` is a prefix of the list, and dropping it leaves the rest. -/
theorem takeLine_append_drop (l : List Char) :
    takeLine l ++ l.drop (takeLine l).length = l := by
  induction l with
  | nil => simp [takeLine]
  | cons c cs ih =>
    simp only [takeLine]
    split
    · simp
    · simp only [List.cons_append, List.length_cons, List.drop_succ_cons]
      exact congrArg (c :: ·) ih

/-- Splitting into lines loses nothing: flattening the lines restores the
original text. -/
theorem splitLines_flatten (l : List Char) : (splitLines l).flatten = l := by
  generalize hn : l.length = n
  induction n using Nat.strong_induction_on generalizing l with
  | _ n ih =>
    match l with
    | [] => simp [splitLines]
    | c :: cs =>
      rw [splitLines]
      simp only [List.flatten_cons, dite_eq_ite, if_neg (List.cons_ne_nil c cs)]
      have hpos := takeLine_length_pos c cs
      have hlen : ((c :: cs).drop (takeLine (c :: cs)).length).length < n := by
        simp only [List.length_drop]
        subst hn
        simp only [List.length_cons]
        omega
      rw [ih _ hlen _ rfl]
      exact takeLine_append_drop (c :: cs)

/-- With enough fuel, the line-reading loop returns exactly the lines of the
text from the cursor on, and leaves the cursor at the end of the buffer. -/
theorem readLinesFuel_eq_splitLines (n : Nat) (b : StringBuffer)
    (hfuel : b.data.length - b.pos < n) :
    readLinesFuel n b =
      (splitLines (b.data.drop b.pos),
       { b with pos := b.pos + (b.data.drop b.pos).length }) := by
  induction n generalizing b with
  | zero => omega
  | succ n ih =>
    rw [readLinesFuel]
    by_cases hlt : b.pos < b.data.length
    · have hne : b.data.drop b.pos ≠ [] := by
        intro hcon
        rw [List.drop_eq_nil_iff] at hcon
        omega
      have hpos : 0 < (takeLine (b.data.drop b.pos)).length := by
        cases hd : b.data.drop b.pos with
        | nil => exact absurd hd hne
        | cons c cs => exact takeLine_length_pos c cs
      have hle := takeLine_length_le (b.data.drop b.pos)
      have hrec : b.data.length - (b.pos + (takeLine (b.data.drop b.pos)).length) < n := by
        simp only [List.length_drop] at hle
        omega
      simp only [StringBuffer.readLine, if_pos hlt]
      rw [ih { b with pos := b.pos + (takeLine (b.data.drop b.pos)).length } hrec]
      conv_rhs => rw [splitLines]
      rw [dif_neg hne]
      simp only [List.drop_drop, Prod.mk.injEq, List.cons.injEq, StringBuffer.mk.injEq,
        List.length_drop, true_and, and_true]
      simp only [List.length_drop] at hle
      omega
    · simp only [StringBuffer.readLine, if_neg hlt]
      have hdrop : b.data.drop b.pos = [] := by
        rw [List.drop_eq_nil_iff]
        omega
      rw [hdrop, splitLines]
      simp

/-- `generator` in closed form: it yields the lines of the whole buffered
text (regardless of the prior cursor) and leaves the cursor at the end. -/
theorem generator_eq_splitLines (b : StringBuffer) :
    TextStreamABC.generator b = (splitLines b.data, { b with pos := b.data.length }) := by
  unfold TextStreamABC.generator
  rw [readLinesFuel_eq_splitLines]
  · simp
  · simp

-- ===================== The claims =====================

/-- C1: the spec claims that `make_text_stream(None)` collects console lines
until a blank line and joins them, so that lines "x", "y", blank give content
"x\ny".  The code does not do this: `_user_input` only returns the joined
lines from its `except` clause, so on the blank-line path the `break` falls
off the end of the function and returns `None` (contradicting its `-> str`
annotation); `make_text_stream` then calls `TextStream(None)`, which reads
from the console a second time, and the collected "x" and "y" are lost.
Here the remaining input is empty, so the final content is "" and not
"x\ny". -/
theorem c1_blank_line_termination_loses_input :
    user_input [ConsoleEvent.line "x", ConsoleEvent.line "y", ConsoleEvent.line ""] =
      (none, [])
    ∧ make_text_stream ⟨[], "/home/u"⟩
        [ConsoleEvent.line "x", ConsoleEvent.line "y", ConsoleEvent.line ""]
        MakeInput.pynone 0 =
      Except.ok (MadeStream.mem ⟨⟨0, [], 0⟩⟩, [])
    ∧ MadeStream.content (MadeStream.mem ⟨⟨0, [], 0⟩⟩) ≠ "x\ny".toList := by
  refine ⟨rfl, rfl, ?_⟩
  decide

/-- C2 (counterexample): on the filesystem with regular files `data/x`
(contents "hello") and `/home/u/f` (contents "hi") and home `/home/u`, the
claim fails twice.  First, `TextFileStream("data/x")` succeeds but
`infile_path` returns "data/x", which is not an absolute path.  Second,
"~/f" refers to an existing regular file after user-home expansion, yet
`TextFileStream("~/f")` raises: the constructor checks the expanded path but
then calls `open` on the raw, unexpanded path. -/
theorem c2_counterexample :
    isFile ⟨[("data/x", "hello"), ("/home/u/f", "hi")], "/home/u"⟩
      (expanduser ⟨[("data/x", "hello"), ("/home/u/f", "hi")], "/home/u"⟩ "data/x") = true
    ∧ TextFileStream.init ⟨[("data/x", "hello"), ("/home/u/f", "hi")], "/home/u"⟩
        (PathInput.str "data/x") 0 =
      Except.ok ⟨"data/x", newStringBuffer 0 (some "hello")⟩
    ∧ TextFileStream.infile_path ⟨[("data/x", "hello"), ("/home/u/f", "hi")], "/home/u"⟩
        ⟨"data/x", newStringBuffer 0 (some "hello")⟩ = "data/x"
    ∧ isAbsolutePath "data/x" = false
    ∧ isFile ⟨[("data/x", "hello"), ("/home/u/f", "hi")], "/home/u"⟩
        (expanduser ⟨[("data/x", "hello"), ("/home/u/f", "hi")], "/home/u"⟩ "~/f") = true
    ∧ TextFileStream.init ⟨[("data/x", "hello"), ("/home/u/f", "hi")], "/home/u"⟩
        (PathInput.str "~/f") 0 =
      Except.error (PyError.fileNotFoundError "[Errno 2] No such file or directory: '~/f'") := by
  decide

/-- C2 (amended): for every path F at which a file literally exists (so `open`
on the raw F succeeds) and whose user-expanded form names an existing regular
file, constructing `TextFileStream(F)` succeeds by eagerly reading that
file's text into the buffer, and `infile_path` returns the user-expanded
(not necessarily absolute) path, recomputed from the stored raw path on each
access. -/
theorem c2_construct_and_infile_path_user_expanded (fs : FileSystem) (F text : String) (n : Nat)
    (hopen : openRead fs F = some text)
    (hfile : isFile fs (expanduser fs F) = true) :
    TextFileStream.init fs (PathInput.str F) n =
      Except.ok ⟨F, newStringBuffer n (some text)⟩
    ∧ TextFileStream.infile_path fs ⟨F, newStringBuffer n (some text)⟩ = expanduser fs F := by
  refine ⟨?_, rfl⟩
  simp [TextFileStream.init, hfile, hopen]

/-- C2 (witness): the amended claim at the concrete file "data/x" with
contents "hello". -/
theorem c2_construct_and_infile_path_user_expanded_witness :
    TextFileStream.init ⟨[("data/x", "hello")], "/home/u"⟩ (PathInput.str "data/x") 0 =
      Except.ok ⟨"data/x", newStringBuffer 0 (some "hello")⟩
    ∧ TextFileStream.infile_path ⟨[("data/x", "hello")], "/home/u"⟩
        ⟨"data/x", newStringBuffer 0 (some "hello")⟩ =
      expanduser ⟨[("data/x", "hello")], "/home/u"⟩ "data/x" :=
  c2_construct_and_infile_path_user_expanded ⟨[("data/x", "hello")], "/home/u"⟩
    "data/x" "hello" 0 (by decide) (by decide)

/-- C3: for every string S that does not name an existing regular file after
user-home expansion, `make_text_stream(S)` returns a Memory Stream
(`TextStream`) wrapping the raw string: its content equals S exactly and its
`infile_path` is `None`. -/
theorem c3_make_text_stream_memory_literal (fs : FileSystem) (S : String)
    (console : List ConsoleEvent) (n : Nat)
    (h : isFile fs (expanduser fs S) = false) :
    make_text_stream fs console (MakeInput.str S) n =
      Except.ok (MadeStream.mem ⟨newStringBuffer n (some S)⟩, console)
    ∧ MadeStream.content (MadeStream.mem ⟨newStringBuffer n (some S)⟩) = S.toList
    ∧ TextStream.infile_path ⟨newStringBuffer n (some S)⟩ = none := by
  refine ⟨?_, rfl, rfl⟩
  simp [make_text_stream, h, TextStream.init, Except.map]

/-- C3 (witness): on an empty filesystem, `make_text_stream("hello\nworld")`
is a Memory Stream with content "hello\nworld" and null `infile_path`. -/
theorem c3_make_text_stream_memory_literal_witness :
    make_text_stream ⟨[], "/home/u"⟩ [] (MakeInput.str "hello\nworld") 0 =
      Except.ok (MadeStream.mem ⟨newStringBuffer 0 (some "hello\nworld")⟩, [])
    ∧ MadeStream.content (MadeStream.mem ⟨newStringBuffer 0 (some "hello\nworld")⟩) =
      "hello\nworld".toList
    ∧ TextStream.infile_path ⟨newStringBuffer 0 (some "hello\nworld")⟩ = none :=
  c3_make_text_stream_memory_literal ⟨[], "/home/u"⟩ "hello\nworld" [] 0 (by decide)

/-- C4: for in-range bounds 0 ≤ begin ≤ end < |content|, `generator_between`
yields exactly the individual characters of the content at positions
begin..end — the slice `content[begin : end+1]` — in order: character
granularity with an inclusive end bound, and exactly end+1-begin items. -/
theorem c4_generator_between_char_granularity_inclusive_end (t : StringBuffer) (b e : Int)
    (hb : 0 ≤ b) (hbe : b ≤ e) (he : e < (TextStreamABC.content t).length) :
    TextStreamABC.generator_between t b e =
      ((TextStreamABC.content t).drop b.toNat).take (e.toNat + 1 - b.toNat)
    ∧ (TextStreamABC.generator_between t b e).length = e.toNat + 1 - b.toNat := by
  have hB : pyClamp (TextStreamABC.content t).length
      (pyIndex (TextStreamABC.content t).length b) = b.toNat := by
    unfold pyIndex pyClamp
    rw [if_neg (by omega : ¬ b < 0)]
    omega
  have hE : pyClamp (TextStreamABC.content t).length
      (pyIndex (TextStreamABC.content t).length (e + 1)) = e.toNat + 1 := by
    unfold pyIndex pyClamp
    rw [if_neg (by omega : ¬ e + 1 < 0)]
    omega
  have hmain : TextStreamABC.generator_between t b e =
      ((TextStreamABC.content t).take (e.toNat + 1)).drop b.toNat := by
    unfold TextStreamABC.generator_between pySlice
    rw [hB, hE]
  constructor
  · rw [hmain, List.take_drop]
    have hAB : b.toNat + (e.toNat + 1 - b.toNat) = e.toNat + 1 := by omega
    rw [hAB]
  · rw [hmain]
    simp only [List.length_drop, List.length_take]
    omega

/-- C4 (witness): on content "hello" with begin 1 and end 3, the produced
characters are exactly "ell" — three characters, end bound inclusive. -/
theorem c4_generator_between_char_granularity_inclusive_end_witness :
    TextStreamABC.generator_between ⟨0, "hello".toList, 0⟩ 1 3 =
      ((TextStreamABC.content ⟨0, "hello".toList, 0⟩).drop (1 : Int).toNat).take
        ((3 : Int).toNat + 1 - (1 : Int).toNat)
    ∧ (TextStreamABC.generator_between ⟨0, "hello".toList, 0⟩ 1 3).length =
      (3 : Int).toNat + 1 - (1 : Int).toNat :=
  c4_generator_between_char_granularity_inclusive_end ⟨0, "hello".toList, 0⟩ 1 3
    (by decide) (by decide) (by decide)

/-- C5: on a stream whose content is "a\nb\nc\n", the position-tagged full
sequence yields exactly ("a\n", 2), ("b\n", 4), ("c\n", 6): each line paired
with the cursor offset immediately after it. -/
theorem c5_generator_telling_position_offsets :
    (TextStreamABC.generator_telling_position ⟨0, "a\nb\nc\n".toList, 0⟩).1 =
      [("a\n".toList, 2), ("b\n".toList, 4), ("c\n".toList, 6)] := by
  decide

/-- C6: the `content` accessor is lazily memoized: on a cache-less instance
the first access reads the buffer's full text (`getvalue`) and caches it; a
repeated access returns the same value and leaves the state unchanged; and no
access ever touches the buffer. -/
theorem c6_content_lazy_memoized (b : StringBuffer) (s : StreamState) :
    accessContent ⟨b, none⟩ = (b.getvalue, ⟨b, some b.getvalue⟩)
    ∧ accessContent (accessContent s).2 = ((accessContent s).1, (accessContent s).2)
    ∧ ((accessContent s).2).buffer = s.buffer := by
  obtain ⟨bb, cc⟩ := s
  cases cc <;> simp [accessContent]

/-- C7: the full-sequence iteration resets the cursor first — its output does
not depend on the prior cursor position — and invoking it twice on the same
instance produces the same finite sequence of lines both times; the lines,
each with its trailing newline kept, concatenate back to the whole buffered
text. -/
theorem c7_generator_restartable (b : StringBuffer) (p : Nat) :
    (TextStreamABC.generator { b with pos := p }).1 = (TextStreamABC.generator b).1
    ∧ (TextStreamABC.generator (TextStreamABC.generator b).2).1 =
      (TextStreamABC.generator b).1
    ∧ ((TextStreamABC.generator b).1).flatten = b.data := by
  simp [generator_eq_splitLines, splitLines_flatten]

/-- C8: round-trip identity: constructing `TextStream` from a buffer handle
stores that very handle (same identity tag, text and cursor — no copy, no
modification), and the `stream` accessor returns it. -/
theorem c8_buffer_stored_by_reference (b : StringBuffer) (console : List ConsoleEvent) (n : Nat) :
    TextStream.init (StreamInput.buffer b) console n = Except.ok (⟨b⟩, console)
    ∧ TextStream.stream ⟨b⟩ = b :=
  ⟨rfl, rfl⟩

/-- C9: for every path P that does not resolve to an existing regular file
after user-home expansion, `TextFileStream(P)` fails synchronously with a
`FileNotFoundError` whose message includes the offending path P, and no
instance is produced. -/
theorem c9_file_not_found_names_path (fs : FileSystem) (P : String) (n : Nat)
    (h : isFile fs (expanduser fs P) = false) :
    TextFileStream.init fs (PathInput.str P) n =
      Except.error (PyError.fileNotFoundError
        ("The *inp* argument '" ++ P ++ "' is not a valid file!")) := by
  simp [TextFileStream.init, h]

/-- C9 (witness): on an empty filesystem, `TextFileStream("data/missing")`
fails with the `FileNotFoundError` message naming "data/missing". -/
theorem c9_file_not_found_names_path_witness :
    TextFileStream.init ⟨[], "/home/u"⟩ (PathInput.str "data/missing") 0 =
      Except.error (PyError.fileNotFoundError
        ("The *inp* argument '" ++ "data/missing" ++ "' is not a valid file!")) :=
  c9_file_not_found_names_path ⟨[], "/home/u"⟩ "data/missing" 0 (by decide)

/-- C10: `generator_between` is total over all integer bounds — it always
returns a (contiguous) selection of the content, never an error — and for
end = -1 the slice bound end+1 becomes 0, so it yields the empty sequence for
every begin, even on non-empty content. -/
theorem c10_generator_between_total_neg_one_empty (t : StringBuffer) (b e : Int) :
    List.Sublist (TextStreamABC.generator_between t b e) (TextStreamABC.content t)
    ∧ TextStreamABC.generator_between t b (-1) = [] := by
  constructor
  · unfold TextStreamABC.generator_between pySlice
    exact (List.drop_sublist _ _).trans (List.take_sublist _ _)
  · have h0 : pyClamp (TextStreamABC.content t).length
        (pyIndex (TextStreamABC.content t).length (-1 + 1)) = 0 := by
      have he : (-1 : Int) + 1 = 0 := by norm_num
      rw [he]
      unfold pyIndex pyClamp
      rw [if_neg (by omega : ¬ (0 : Int) < 0)]
      omega
    unfold TextStreamABC.generator_between pySlice
    rw [h0]
    simp
